import Mathlib

/-!
Verification of the fastmcp-github-oauth example server
(`src/fastmcp_github_oauth_example/server.py`) against its
natural-language specification.

The Python module is embedded shallowly:
* an environment is a partial map from variable names to strings
  (`os.getenv` returns `none` when the variable is unset);
* JSON-style payloads built by the tool handlers are values of the
  inductive type `Value`; Python `None` becomes `Value.null`;
* the validated token-claims mapping is an association list from claim
  names to values, with `dict.get` semantics;
* `create_server` returns `Except String Server`, the `error` case
  standing for the `ValueError` raised on missing configuration;
* `main` is modelled as a function of the environment plus an oracle
  `runErr` saying whether the framework launch (`mcp.run`) raises; its
  result records whether the process exits with a code or blocks
  serving HTTP on a host and port.
-/

/-- An operating-system environment: `none` means the variable is unset. -/
def Env : Type := String → Option String

/-- JSON-like values as produced by the tool handlers and the health
endpoint.  Python `None` is `null`. -/
inductive Value where
  | null : Value
  | bool (b : Bool) : Value
  | str (s : String) : Value
  | int (n : Int) : Value
  | arr (elems : List Value) : Value
  | obj (fields : List (String × Value)) : Value

/-- The validated token-claims mapping (`token.claims`). -/
def Claims : Type := List (String × Value)

/-- Python truthiness of an `os.getenv` result: `not os.getenv(var)` is
true exactly when the variable is unset or set to the empty string. -/
def pyTruthy : Option String → Bool
  | none => false
  | some s => !(s == "")

/-- `os.getenv(k)`. -/
def getenv (env : Env) (k : String) : Option String := env k

/-- `os.getenv(k, d)`: the default is used only when the variable is unset. -/
def getenvD (env : Env) (k d : String) : String := (env k).getD d

/-- `token.claims.get(k)`, with Python `None` rendered as `Value.null`. -/
def claimGet (c : Claims) (k : String) : Value := (List.lookup k c).getD Value.null

/-- `token.claims.get(k, d)`. -/
def claimGetD (c : Claims) (k : String) (d : Value) : Value := (List.lookup k c).getD d

/-- An `os.getenv` result placed into a JSON payload: unset becomes `null`. -/
def optStrValue : Option String → Value
  | none => Value.null
  | some s => Value.str s

/-- Key lookup on an object value (`none` on non-objects). -/
def Value.lookupKey : Value → String → Option Value
  | Value.obj fields, k => List.lookup k fields
  | _, _ => none

/-- The keys of an object value, in order (`none` on non-objects). -/
def valueKeys : Value → Option (List String)
  | Value.obj fields => some (fields.map Prod.fst)
  | _ => none

/-- An incoming HTTP request, as far as the handlers can observe it. -/
structure Request where
  method : String
  path : String
  headers : List (String × String)
  body : String

/-- A Starlette route: path, handler and allowed methods. -/
structure Route where
  path : String
  handler : Request → Value
  methods : List String

/-- The `GitHubProvider` configuration object built by `create_server`. -/
structure GitHubProvider where
  client_id : Option String
  client_secret : Option String
  base_url : String
  redirect_path : String
  required_scopes : List String

/-- A registered MCP tool: its name and its handler.  A handler receives
the process environment (read by `os.getenv` at call time) and the
validated token claims. -/
structure Tool where
  name : String
  handler : Env → Claims → Value

/-- The configured FastMCP server returned by `create_server`. -/
structure Server where
  name : String
  auth : GitHubProvider
  routes : List Route
  tools : List Tool

/-- The `health` handler inside `create_health_endpoint`: it ignores the
request entirely. -/
def health (_ : Request) : Value :=
  Value.obj
    [("status", Value.str "healthy"),
     ("service", Value.str "fastmcp-github-oauth"),
     ("version", Value.str "0.1.0")]

/-- `create_health_endpoint()`: the `/health` route, GET only. -/
def create_health_endpoint : Route :=
  { path := "/health", handler := health, methods := ["GET"] }

/-- The `required_env_vars` list of `create_server`. -/
def required_env_vars : List String := ["GITHUB_CLIENT_ID", "GITHUB_CLIENT_SECRET"]

/-- The `missing_vars` comprehension: required variables whose
`os.getenv` result is falsy (unset or empty). -/
def missing_vars (env : Env) : List String :=
  required_env_vars.filter (fun v => !(pyTruthy (getenv env v)))

/-- The `get_user_info` tool body: thirteen fields copied from the
token claims, `github_user` coming from the `login` claim. -/
def get_user_info (c : Claims) : Value :=
  Value.obj
    [("github_user", claimGet c "login"),
     ("name", claimGet c "name"),
     ("email", claimGet c "email"),
     ("avatar_url", claimGet c "avatar_url"),
     ("company", claimGet c "company"),
     ("location", claimGet c "location"),
     ("public_repos", claimGet c "public_repos"),
     ("followers", claimGet c "followers"),
     ("following", claimGet c "following"),
     ("bio", claimGet c "bio"),
     ("blog", claimGet c "blog"),
     ("created_at", claimGet c "created_at"),
     ("updated_at", claimGet c "updated_at")]

/-- The `get_server_info` tool body: a literal dictionary, no inputs. -/
def get_server_info : Value :=
  Value.obj
    [("server_name", Value.str "FastMCP GitHub OAuth Example"),
     ("version", Value.str "0.1.0"),
     ("auth_provider", Value.str "GitHub OAuth"),
     ("transport", Value.str "HTTP Streamable"),
     ("container", Value.str "Docker Multi-arch"),
     ("build_system", Value.str "GoReleaser + uv"),
     ("endpoints",
       Value.obj
         [("mcp", Value.str "/mcp/"),
          ("health", Value.str "/health"),
          ("oauth_callback", Value.str "/auth/callback")]),
     ("supported_architectures",
       Value.arr [Value.str "linux/amd64", Value.str "linux/arm64"])]

/-- The `get_oauth_status` tool body: reads the token claims and, via
`os.getenv`, the client id and base URL (never the client secret). -/
def get_oauth_status (env : Env) (c : Claims) : Value :=
  Value.obj
    [("authenticated", Value.bool true),
     ("user", claimGet c "login"),
     ("scopes", claimGetD c "scopes" (Value.arr [])),
     ("token_type", Value.str "Bearer"),
     ("auth_provider", Value.str "GitHub"),
     ("client_id", optStrValue (getenv env "GITHUB_CLIENT_ID")),
     ("base_url", Value.str (getenvD env "BASE_URL" "http://localhost:8000"))]

/-- The `ping` tool body: a literal dictionary; the `timestamp` entry is
the unsubstituted template placeholder string. -/
def ping : Value :=
  Value.obj
    [("message", Value.str "pong"),
     ("timestamp", Value.str "\x7b\x7b .Date \x7d\x7d"),
     ("server", Value.str "FastMCP GitHub OAuth Example")]

/-- The registered `get_server_info` tool: its handler ignores the
environment and the claims. -/
def serverInfoTool : Tool :=
  { name := "get_server_info", handler := fun _ _ => get_server_info }

/-- The server object built by the success path of `create_server`:
the GitHub provider, the health route, and the four registered tools
in registration order. -/
def serverOf (env : Env) : Server :=
  { name := "GitHub OAuth Example Server"
    auth :=
      { client_id := getenv env "GITHUB_CLIENT_ID"
        client_secret := getenv env "GITHUB_CLIENT_SECRET"
        base_url := getenvD env "BASE_URL" "http://localhost:8000"
        redirect_path := "/auth/callback"
        required_scopes := ["user:email"] }
    routes := [create_health_endpoint]
    tools :=
      [{ name := "get_user_info", handler := fun _ c => get_user_info c },
       serverInfoTool,
       { name := "get_oauth_status", handler := fun e c => get_oauth_status e c },
       { name := "ping", handler := fun _ _ => ping }] }

/-- `create_server()`: validates the required environment variables,
raising (`Except.error`) when any is falsy, and otherwise builds the
configured server. -/
def create_server (env : Env) : Except String Server :=
  if missing_vars env ≠ [] then
    Except.error
      ("Missing required environment variables: "
        ++ String.intercalate ", " (missing_vars env))
  else
    Except.ok (serverOf env)

/-- Whether an `Except` result is a success. -/
def exceptIsOk : Except String Server → Bool
  | Except.ok _ => true
  | Except.error _ => false

/-- The names of the registered tools of a successfully built server. -/
def toolNames : Except String Server → Option (List String)
  | Except.ok s => some (s.tools.map Tool.name)
  | Except.error _ => none

/-- Find a registered tool by name. -/
def findTool (s : Server) (n : String) : Option Tool :=
  s.tools.find? (fun t => t.name == n)

/-- The outcome of `main`: the process either exits with a code or
blocks serving HTTP on a host and port. -/
inductive MainResult where
  | exits (code : Nat) : MainResult
  | serves (host : String) (port : Int) : MainResult

/-- Python `int(s)` on the PORT string: `none` models the `ValueError`
raised on a non-numeric string. -/
def parsePyInt (s : String) : Option Int := s.toInt?

namespace ServerModule

/-- `main()`.  `runErr` is an oracle for whether the framework launch
(`mcp.run`) raises an exception; both `except` arms of the source
`print` and exit with code 1. -/
def main (env : Env) (runErr : Option String) : MainResult :=
  match create_server env with
  | Except.error _ => MainResult.exits 1
  | Except.ok _ =>
    match parsePyInt (getenvD env "PORT" "8000") with
    | none => MainResult.exits 1
    | some port =>
      match runErr with
      | some _ => MainResult.exits 1
      | none => MainResult.serves (getenvD env "HOST" "0.0.0.0") port

end ServerModule

/-- Startup succeeds without an exception: construction succeeded, the
PORT string parsed, and the launch oracle reports no exception. -/
def startupOk (env : Env) (runErr : Option String) : Bool :=
  exceptIsOk (create_server env)
    && (parsePyInt (getenvD env "PORT" "8000")).isSome
    && runErr.isNone

/-- Concrete environment: client id present but empty, secret non-empty. -/
def envEmptyId : Env := fun s =>
  if s = "GITHUB_CLIENT_ID" then some ""
  else if s = "GITHUB_CLIENT_SECRET" then some "shhh" else none

/-- Concrete environment: both required variables non-empty. -/
def envGood : Env := fun s =>
  if s = "GITHUB_CLIENT_ID" then some "iv1.abc"
  else if s = "GITHUB_CLIENT_SECRET" then some "topsecret" else none

/-- Like `envGood` but with a different client secret. -/
def envGood2 : Env := fun s =>
  if s = "GITHUB_CLIENT_ID" then some "iv1.abc"
  else if s = "GITHUB_CLIENT_SECRET" then some "othersecret" else none

/-- Concrete environment with nothing set. -/
def envNone : Env := fun _ => none

/-- A concrete GET request to the health endpoint. -/
def reqGet : Request :=
  { method := "GET", path := "/health", headers := [], body := "" }

/-- A concrete claims mapping. -/
def claimsSample : Claims :=
  [("login", Value.str "octocat"), ("name", Value.str "Octo Cat")]

/-- Claim C4: for every validated token-claims mapping, `get_user_info`
returns a dictionary with exactly the thirteen keys listed, where
`github_user` is the claims lookup of `login` and every other value is
the claims lookup of the key of the same name (null when absent),
untransformed. -/
theorem get_user_info_fields (c : Claims) :
    valueKeys (get_user_info c) =
      some ["github_user", "name", "email", "avatar_url", "company", "location",
            "public_repos", "followers", "following", "bio", "blog",
            "created_at", "updated_at"]
    ∧ Value.lookupKey (get_user_info c) "github_user" = some (claimGet c "login")
    ∧ Value.lookupKey (get_user_info c) "name" = some (claimGet c "name")
    ∧ Value.lookupKey (get_user_info c) "email" = some (claimGet c "email")
    ∧ Value.lookupKey (get_user_info c) "avatar_url" = some (claimGet c "avatar_url")
    ∧ Value.lookupKey (get_user_info c) "company" = some (claimGet c "company")
    ∧ Value.lookupKey (get_user_info c) "location" = some (claimGet c "location")
    ∧ Value.lookupKey (get_user_info c) "public_repos" = some (claimGet c "public_repos")
    ∧ Value.lookupKey (get_user_info c) "followers" = some (claimGet c "followers")
    ∧ Value.lookupKey (get_user_info c) "following" = some (claimGet c "following")
    ∧ Value.lookupKey (get_user_info c) "bio" = some (claimGet c "bio")
    ∧ Value.lookupKey (get_user_info c) "blog" = some (claimGet c "blog")
    ∧ Value.lookupKey (get_user_info c) "created_at" = some (claimGet c "created_at")
    ∧ Value.lookupKey (get_user_info c) "updated_at" = some (claimGet c "updated_at") :=
  ⟨rfl, rfl, rfl, rfl, rfl, rfl, rfl, rfl, rfl, rfl, rfl, rfl, rfl, rfl⟩

/-- Claim C5: for every environment and validated token-claims mapping,
the payload returned by `get_oauth_status` has its `authenticated`
field equal to `true`. -/
theorem oauth_status_authenticated (env : Env) (c : Claims) :
    Value.lookupKey (get_oauth_status env c) "authenticated" =
      some (Value.bool true) := rfl

/-- Claim C6: for every GET request, the health endpoint's handler
returns the fixed JSON status object, independent of the request's
contents. -/
theorem health_get_response (req : Request) (_hget : req.method = "GET") :
    create_health_endpoint.handler req =
      Value.obj
        [("status", Value.str "healthy"),
         ("service", Value.str "fastmcp-github-oauth"),
         ("version", Value.str "0.1.0")] := rfl

/-- Witness for C6 at a concrete GET request. -/
theorem health_get_response_witness :
    reqGet.method = "GET" ∧
    create_health_endpoint.handler reqGet =
      Value.obj
        [("status", Value.str "healthy"),
         ("service", Value.str "fastmcp-github-oauth"),
         ("version", Value.str "0.1.0")] :=
  ⟨rfl, health_get_response reqGet rfl⟩

/-- Claim C7: every invocation of the `ping` tool returns a payload
whose `message` field is the string `pong`. -/
theorem ping_message_pong :
    Value.lookupKey ping "message" = some (Value.str "pong") := rfl

/-- Claim C10: the `ping` payload is one fixed constant, and its
`timestamp` field is the literal unsubstituted template placeholder
string, not a time value. -/
theorem ping_payload_constant :
    Value.lookupKey ping "timestamp" =
      some (Value.str "\x7b\x7b .Date \x7d\x7d") ∧
    ping =
      Value.obj
        [("message", Value.str "pong"),
         ("timestamp", Value.str "\x7b\x7b .Date \x7d\x7d"),
         ("server", Value.str "FastMCP GitHub OAuth Example")] :=
  ⟨rfl, rfl⟩

/-- Claim C3: `main` exits with code 1 exactly when some startup step
raises (construction, PORT parsing, or launch); when no startup
exception occurs it does not exit but blocks serving HTTP on the
configured host and port. -/
theorem main_exit_behavior (env : Env) (runErr : Option String) :
    ServerModule.main env runErr =
      if startupOk env runErr then
        MainResult.serves (getenvD env "HOST" "0.0.0.0")
          ((parsePyInt (getenvD env "PORT" "8000")).getD 0)
      else
        MainResult.exits 1 := by
  unfold ServerModule.main startupOk
  cases h1 : create_server env with
  | error e => simp [exceptIsOk]
  | ok s =>
    cases h2 : parsePyInt (getenvD env "PORT" "8000") with
    | none => simp [exceptIsOk]
    | some p =>
      cases runErr with
      | none => simp [exceptIsOk]
      | some msg => simp [exceptIsOk]

/-- Claim C9: `get_oauth_status` does not depend on the client secret:
two environments that agree everywhere except `GITHUB_CLIENT_SECRET`
(set in both) yield identical payloads on equal claims. -/
theorem oauth_status_secret_noninterference (env1 env2 : Env) (c : Claims)
    (hagree : ∀ k, k ≠ "GITHUB_CLIENT_SECRET" → env1 k = env2 k)
    (_h1 : (env1 "GITHUB_CLIENT_SECRET").isSome = true)
    (_h2 : (env2 "GITHUB_CLIENT_SECRET").isSome = true) :
    get_oauth_status env1 c = get_oauth_status env2 c := by
  unfold get_oauth_status getenv getenvD
  rw [hagree "GITHUB_CLIENT_ID" (by decide), hagree "BASE_URL" (by decide)]

/-- Witness for C9 on two concrete environments differing only in the
client secret. -/
theorem oauth_status_secret_noninterference_witness :
    (envGood "GITHUB_CLIENT_SECRET").isSome = true ∧
    (envGood2 "GITHUB_CLIENT_SECRET").isSome = true ∧
    get_oauth_status envGood claimsSample = get_oauth_status envGood2 claimsSample := by
  refine ⟨rfl, rfl, oauth_status_secret_noninterference envGood envGood2 claimsSample ?_ rfl rfl⟩
  intro k hk
  unfold envGood envGood2
  by_cases hid : k = "GITHUB_CLIENT_ID"
  · simp [hid]
  · simp [hid, hk]

/-- Claim C8: the `get_server_info` tool registered by `create_server`
is a constant function: on any inputs it returns the one fixed
metadata dictionary. -/
theorem server_info_static (env : Env) (s : Server) (t : Tool)
    (hs : create_server env = Except.ok s)
    (ht : findTool s "get_server_info" = some t)
    (e1 e2 : Env) (c1 c2 : Claims) :
    t.handler e1 c1 = t.handler e2 c2 ∧
    t.handler e1 c1 =
      Value.obj
        [("server_name", Value.str "FastMCP GitHub OAuth Example"),
         ("version", Value.str "0.1.0"),
         ("auth_provider", Value.str "GitHub OAuth"),
         ("transport", Value.str "HTTP Streamable"),
         ("container", Value.str "Docker Multi-arch"),
         ("build_system", Value.str "GoReleaser + uv"),
         ("endpoints",
           Value.obj
             [("mcp", Value.str "/mcp/"),
              ("health", Value.str "/health"),
              ("oauth_callback", Value.str "/auth/callback")]),
         ("supported_architectures",
           Value.arr [Value.str "linux/amd64", Value.str "linux/arm64"])] := by
  unfold create_server at hs
  split at hs
  · cases hs
  · cases hs
    have hteq : serverInfoTool = t := Option.some.inj ht
    rw [← hteq]
    exact ⟨rfl, rfl⟩

/-- Counterexample to claim C1 as stated: in the environment where
`GITHUB_CLIENT_ID` is set to the empty string and
`GITHUB_CLIENT_SECRET` is set non-empty, both variables are set, yet
`create_server` raises (the `not os.getenv(var)` check treats an
empty value as missing). -/
theorem create_server_set_but_empty_cex :
    ¬ ((envEmptyId "GITHUB_CLIENT_ID").isSome = true →
       (envEmptyId "GITHUB_CLIENT_SECRET").isSome = true →
       exceptIsOk (create_server envEmptyId) = true ∧
       toolNames (create_server envEmptyId) =
         some ["get_user_info", "get_server_info", "get_oauth_status", "ping"]) := by
  intro h
  exact absurd (h rfl rfl).1 (by decide)

/-- Claim C1 (amended): for every environment in which both
`GITHUB_CLIENT_ID` and `GITHUB_CLIENT_SECRET` are set to non-empty
strings, `create_server` succeeds and the returned server exposes
exactly the four tools `get_user_info`, `get_server_info`,
`get_oauth_status`, `ping`, in that order. -/
theorem create_server_ok_of_nonempty (env : Env)
    (h1 : pyTruthy (getenv env "GITHUB_CLIENT_ID") = true)
    (h2 : pyTruthy (getenv env "GITHUB_CLIENT_SECRET") = true) :
    exceptIsOk (create_server env) = true ∧
    toolNames (create_server env) =
      some ["get_user_info", "get_server_info", "get_oauth_status", "ping"] := by
  have hm : missing_vars env = [] := by
    simp [missing_vars, required_env_vars, List.filter, h1, h2]
  constructor
  · simp [create_server, hm, exceptIsOk]
  · simp [create_server, hm, toolNames, serverOf, serverInfoTool, Tool.name]

/-- Witness for the amended C1 at a concrete environment. -/
theorem create_server_ok_of_nonempty_witness :
    pyTruthy (getenv envGood "GITHUB_CLIENT_ID") = true ∧
    pyTruthy (getenv envGood "GITHUB_CLIENT_SECRET") = true ∧
    (exceptIsOk (create_server envGood) = true ∧
     toolNames (create_server envGood) =
       some ["get_user_info", "get_server_info", "get_oauth_status", "ping"]) :=
  ⟨rfl, rfl, create_server_ok_of_nonempty envGood rfl rfl⟩

/-- Counterexample to claim C2 as stated: in the environment where
`GITHUB_CLIENT_ID` is the empty string and `GITHUB_CLIENT_SECRET` is
non-empty, `create_server` raises even though neither required
variable is missing, refuting the stated `if and only if`. -/
theorem config_error_missing_iff_cex :
    ¬ (exceptIsOk (create_server envEmptyId) = false →
       ((envEmptyId "GITHUB_CLIENT_ID").isNone = true ∨
        (envEmptyId "GITHUB_CLIENT_SECRET").isNone = true)) := by
  decide

/-- Claim C2 (amended): `create_server` raises a configuration error
exactly when at least one required variable is unset or empty; the
error message names exactly the offending variables, in order, joined
by a comma and space after the fixed message; and whenever
construction raises, `main` exits with code 1. -/
theorem config_error_characterization (env : Env) :
    (exceptIsOk (create_server env) = false ↔
      (pyTruthy (getenv env "GITHUB_CLIENT_ID") = false ∨
       pyTruthy (getenv env "GITHUB_CLIENT_SECRET") = false)) ∧
    (∀ msg, create_server env = Except.error msg →
      ((pyTruthy (getenv env "GITHUB_CLIENT_ID") = false ∧
        pyTruthy (getenv env "GITHUB_CLIENT_SECRET") = false ∧
        msg = "Missing required environment variables: GITHUB_CLIENT_ID, GITHUB_CLIENT_SECRET") ∨
       (pyTruthy (getenv env "GITHUB_CLIENT_ID") = false ∧
        pyTruthy (getenv env "GITHUB_CLIENT_SECRET") = true ∧
        msg = "Missing required environment variables: GITHUB_CLIENT_ID") ∨
       (pyTruthy (getenv env "GITHUB_CLIENT_ID") = true ∧
        pyTruthy (getenv env "GITHUB_CLIENT_SECRET") = false ∧
        msg = "Missing required environment variables: GITHUB_CLIENT_SECRET"))) ∧
    (∀ runErr, exceptIsOk (create_server env) = false →
      ServerModule.main env runErr = MainResult.exits 1) := by
  cases hA : pyTruthy (getenv env "GITHUB_CLIENT_ID") <;>
    cases hB : pyTruthy (getenv env "GITHUB_CLIENT_SECRET") <;>
    [skip; skip; skip;
     (have hm : missing_vars env = [] := by
        simp [missing_vars, required_env_vars, List.filter, hA, hB])] <;>
    [(have hm : missing_vars env = ["GITHUB_CLIENT_ID", "GITHUB_CLIENT_SECRET"] := by
        simp [missing_vars, required_env_vars, List.filter, hA, hB]);
     (have hm : missing_vars env = ["GITHUB_CLIENT_ID"] := by
        simp [missing_vars, required_env_vars, List.filter, hA, hB]);
     (have hm : missing_vars env = ["GITHUB_CLIENT_SECRET"] := by
        simp [missing_vars, required_env_vars, List.filter, hA, hB]);
     skip] <;>
    refine ⟨?_, ?_, ?_⟩
  all_goals
    simp [create_server, hm, exceptIsOk, ServerModule.main]
  all_goals rfl

/-- Witness for the amended C2 at the empty environment. -/
theorem config_error_characterization_witness :
    exceptIsOk (create_server envNone) = false ∧
    ServerModule.main envNone none = MainResult.exits 1 := by
  have h := config_error_characterization envNone
  exact ⟨(h.1).mpr (Or.inl rfl), h.2.2 none ((h.1).mpr (Or.inl rfl))⟩

/-- Witness for C8 at a concrete environment. -/
theorem server_info_static_witness :
    create_server envGood = Except.ok (serverOf envGood) ∧
    findTool (serverOf envGood) "get_server_info" = some serverInfoTool ∧
    serverInfoTool.handler envGood claimsSample =
      serverInfoTool.handler envNone [] :=
  ⟨rfl, rfl,
    (server_info_static envGood (serverOf envGood) serverInfoTool rfl rfl
      envGood envNone claimsSample []).1⟩
